import Mathlib

/-!
Shallow embedding of the `textwidth` crate (src/lib.rs), an X11 text-width
helper.  The crate wraps five external Xlib calls: XOpenDisplay,
XCreateFontSet, XLoadQueryFont, XmbTextExtents / XTextWidth, and the
teardown calls XFreeFontSet / XFreeFont / XCloseDisplay.

The external X server is modelled by an oracle `XEnv` that decides the
outcome of each Xlib call (whether the display opens, which handles the
font-resolution calls return, which widths the measurement calls report).
Every externally visible Xlib call a function performs is recorded, in
order, in a trace of `XEvent`s, so that resource-lifecycle properties
(connections closed on failure paths, teardown order, the missing-charset
list being freed) are provable facts about the trace.

Rust strings are modelled as their UTF-8 byte lists (`List Nat`);
`CString::new` fails exactly when the byte list contains an interior NUL.
Null pointers returned by the X calls are modelled by the handle value 0
(for fonts and font sets) and by the `displayOk` flag (for the display).
-/

/-- Errors of the crate, mirroring `enum XError` in src/lib.rs.
`NulError` is the conversion failure of `CString::new`. -/
inductive XError where
  | DisplayOpen : XError
  | CouldNotLoadFont : List Nat → XError
  | NulError : XError
  deriving DecidableEq

/-- The tagged resource payload, mirroring `enum Data` in src/lib.rs:
either a font set or a single X font, each together with the display. -/
inductive Data where
  | FontSet : (display : Nat) → (fontset : Nat) → Data
  | XFont : (display : Nat) → (xfont : Nat) → Data
  deriving DecidableEq

/-- Mirrors `pub struct Context { data: Data }` in src/lib.rs. -/
structure Context where
  data : Data
  deriving DecidableEq

/-- One externally visible Xlib call, as recorded in a trace. -/
inductive XEvent where
  | openDisplay : (d : Nat) → XEvent
  | closeDisplay : (d : Nat) → XEvent
  | createFontSet : (d : Nat) → (name : List Nat) → XEvent
  | freeStringList : (d : Nat) → XEvent
  | loadQueryFont : (d : Nat) → (name : List Nat) → XEvent
  | freeFontSet : (d : Nat) → (fs : Nat) → XEvent
  | freeFont : (d : Nat) → (f : Nat) → XEvent
  | mbTextExtents : (fs : Nat) → (text : List Nat) → XEvent
  | textWidthCall : (f : Nat) → (text : List Nat) → XEvent
  deriving DecidableEq

/-- Oracle for the external X server: the outcome of each Xlib call the
crate performs.  Handle value 0 encodes a null pointer. -/
structure XEnv where
  /-- Does `XOpenDisplay(NULL)` return a non-null display? -/
  displayOk : Bool
  /-- The (non-null) display handle returned when it does. -/
  displayHandle : Nat
  /-- Handle returned by `XCreateFontSet` for a given name (0 = null). -/
  fontsetHandle : List Nat → Nat
  /-- Whether the missing-charset list pointer set by `XCreateFontSet`
  is null for a given name. -/
  missingNull : List Nat → Bool
  /-- Handle returned by `XLoadQueryFont` for a given name (0 = null). -/
  xfontHandle : List Nat → Nat
  /-- The `width` field (a C `unsigned short`) of the overall extents
  reported by `XmbTextExtents` for a font set and a byte string. -/
  mbWidth : Nat → List Nat → Nat
  /-- The C `int` returned by `XTextWidth` for a font and a byte string. -/
  xTextWidth : Nat → List Nat → Int

/-- `CString::new`: succeeds with the same bytes iff no interior NUL. -/
def cstringNew (bytes : List Nat) : Option (List Nat) :=
  if bytes.contains 0 then none else some bytes

/-- Wrap to a C `unsigned short`, the type of `XRectangle.width`. -/
def u16wrap (n : Nat) : Nat := n % 65536

/-- Wrap an oracle integer to the C `int` (i32) value it denotes. -/
def i32ofInt (v : Int) : Int := (v + 2 ^ 31) % 2 ^ 32 - 2 ^ 31

/-- Rust `as u64` applied to an `i32`: sign-extend, reinterpret. -/
def u64ofI32 (v : Int) : Nat := (i32ofInt v % (2 ^ 64 : Int)).toNat

/-- `Context::new` from src/lib.rs: convert the name to a `CString`
(failing with `NulError` before anything is opened); open the display
(failing with `DisplayOpen` if null); call `XCreateFontSet`, freeing the
missing-charset list exactly when its pointer is non-null; if the font
set is non-null return the `FontSet` context; otherwise try
`XLoadQueryFont`, returning the `XFont` context on success and closing
the display before returning `CouldNotLoadFont` on failure.
Returns the result together with the trace of Xlib calls performed. -/
def Context.new (env : XEnv) (name : List Nat) :
    Except XError Context × List XEvent :=
  match cstringNew name with
  | none => (Except.error XError.NulError, [])
  | some cname =>
    if env.displayOk = false then
      (Except.error XError.DisplayOpen, [])
    else
      let dpy := env.displayHandle
      let missingTrace : List XEvent :=
        if env.missingNull cname then [] else [XEvent.freeStringList dpy]
      let base : List XEvent :=
        [XEvent.openDisplay dpy, XEvent.createFontSet dpy cname] ++ missingTrace
      let fontset := env.fontsetHandle cname
      if fontset ≠ 0 then
        (Except.ok { data := Data.FontSet dpy fontset }, base)
      else
        let xfont := env.xfontHandle cname
        if xfont = 0 then
          (Except.error (XError.CouldNotLoadFont cname),
            base ++ [XEvent.loadQueryFont dpy cname, XEvent.closeDisplay dpy])
        else
          (Except.ok { data := Data.XFont dpy xfont },
            base ++ [XEvent.loadQueryFont dpy cname])

/-- The UTF-8 bytes of the misc-fixed font specification literal. -/
def miscFixedSpec : List Nat :=
  ("-misc-fixed-*-*-*-*-*-*-*-*-*-*-*-*".toUTF8.toList.map UInt8.toNat)

/-- `Context::with_misc` from src/lib.rs. -/
def Context.with_misc (env : XEnv) : Except XError Context × List XEvent :=
  Context.new env miscFixedSpec

/-- `get_text_width` from src/lib.rs: convert the text to a `CString`
(failing with `NulError`), then delegate to `XmbTextExtents` (FontSet
variant, taking the `width` field of the overall extents) or
`XTextWidth` (XFont variant), casting the result to `u64`. -/
def get_text_width (env : XEnv) (ctx : Context) (text : List Nat) :
    Except XError Nat × List XEvent :=
  match cstringNew text with
  | none => (Except.error XError.NulError, [])
  | some ctext =>
    match ctx.data with
    | Data.FontSet _ fontset =>
        (Except.ok (u16wrap (env.mbWidth fontset ctext)),
          [XEvent.mbTextExtents fontset ctext])
    | Data.XFont _ xfont =>
        (Except.ok (u64ofI32 (env.xTextWidth xfont ctext)),
          [XEvent.textWidthCall xfont ctext])

/-- `Context::text_width` from src/lib.rs: delegates to `get_text_width`. -/
def Context.text_width (env : XEnv) (ctx : Context) (text : List Nat) :
    Except XError Nat × List XEvent :=
  get_text_width env ctx text

/-- `impl Drop for Context` from src/lib.rs: release the font resource
matching the held variant, then close the display.  The Xlib release
calls cannot fail in Rust (their return values are ignored), so teardown
is a total function producing only a trace. -/
def Context.drop (ctx : Context) : List XEvent :=
  match ctx.data with
  | Data.FontSet display fontset =>
      [XEvent.freeFontSet display fontset, XEvent.closeDisplay display]
  | Data.XFont display xfont =>
      [XEvent.freeFont display xfont, XEvent.closeDisplay display]

/-- Process-wide state of Xlib, as far as this crate touches it. -/
structure XProc where
  threadsInited : Bool
  deriving DecidableEq

/-- The external `XInitThreads` call: sets the process-wide threads
flag; by the Xlib contract calls after the first are no-ops, i.e. the
call only ever sets the flag. -/
def xInitThreads (s : XProc) : XProc := { s with threadsInited := true }

/-- `setup_multithreading` from src/lib.rs: calls `XInitThreads`. -/
def setup_multithreading (s : XProc) : XProc := xInitThreads s

/-- The display handle held inside a context. -/
def Context.display (ctx : Context) : Nat :=
  match ctx.data with
  | Data.FontSet d _ => d
  | Data.XFont d _ => d

/-- Displays successfully opened during a trace. -/
def opens (tr : List XEvent) : List Nat :=
  tr.filterMap fun e =>
    match e with
    | XEvent.openDisplay d => some d
    | _ => none

/-- Displays closed during a trace. -/
def closes (tr : List XEvent) : List Nat :=
  tr.filterMap fun e =>
    match e with
    | XEvent.closeDisplay d => some d
    | _ => none

/-- An event that releases no resource: anything but a close or free. -/
def readOnlyEvent (e : XEvent) : Bool :=
  match e with
  | XEvent.closeDisplay _ => false
  | XEvent.freeFontSet _ _ => false
  | XEvent.freeFont _ _ => false
  | XEvent.freeStringList _ => false
  | _ => true

/-- A concrete oracle on which every X call succeeds. -/
def envAllOk : XEnv where
  displayOk := true
  displayHandle := 1
  fontsetHandle := fun _ => 2
  missingNull := fun _ => true
  xfontHandle := fun _ => 3
  mbWidth := fun _ _ => 0
  xTextWidth := fun _ _ => 0

/-- A concrete oracle with no display available. -/
def envNoDisplay : XEnv := { envAllOk with displayOk := false }

/-- A concrete oracle on which no font resolves. -/
def envNoFonts : XEnv :=
  { envAllOk with fontsetHandle := fun _ => 0, xfontHandle := fun _ => 0 }

/-- A concrete oracle on which only the single-font fallback resolves. -/
def envOnlyXFont : XEnv := { envAllOk with fontsetHandle := fun _ => 0 }

/-- A concrete oracle reporting a non-null missing-charset list. -/
def envMissingList : XEnv := { envAllOk with missingNull := fun _ => false }

/-- `envAllOk` with the missing-charset behaviour replaced. -/
def withMissing (env : XEnv) (m : List Nat → Bool) : XEnv :=
  { env with missingNull := m }

/-- Exhaustive case analysis of `Context.new`: the five exit paths of the
constructor, with the exact result and trace of each. -/
theorem new_shape (env : XEnv) (name : List Nat) :
    (name.contains 0 = true
      ∧ Context.new env name = (Except.error XError.NulError, []))
    ∨ (name.contains 0 = false ∧ env.displayOk = false
      ∧ Context.new env name = (Except.error XError.DisplayOpen, []))
    ∨ (name.contains 0 = false ∧ env.displayOk = true
      ∧ env.fontsetHandle name ≠ 0
      ∧ Context.new env name =
          (Except.ok { data := Data.FontSet env.displayHandle (env.fontsetHandle name) },
            [XEvent.openDisplay env.displayHandle,
              XEvent.createFontSet env.displayHandle name]
              ++ (if env.missingNull name then []
                  else [XEvent.freeStringList env.displayHandle])))
    ∨ (name.contains 0 = false ∧ env.displayOk = true
      ∧ env.fontsetHandle name = 0 ∧ env.xfontHandle name ≠ 0
      ∧ Context.new env name =
          (Except.ok { data := Data.XFont env.displayHandle (env.xfontHandle name) },
            [XEvent.openDisplay env.displayHandle,
              XEvent.createFontSet env.displayHandle name]
              ++ (if env.missingNull name then []
                  else [XEvent.freeStringList env.displayHandle])
              ++ [XEvent.loadQueryFont env.displayHandle name]))
    ∨ (name.contains 0 = false ∧ env.displayOk = true
      ∧ env.fontsetHandle name = 0 ∧ env.xfontHandle name = 0
      ∧ Context.new env name =
          (Except.error (XError.CouldNotLoadFont name),
            [XEvent.openDisplay env.displayHandle,
              XEvent.createFontSet env.displayHandle name]
              ++ (if env.missingNull name then []
                  else [XEvent.freeStringList env.displayHandle])
              ++ [XEvent.loadQueryFont env.displayHandle name,
                XEvent.closeDisplay env.displayHandle])) := by
  by_cases hn : name.contains 0 = true
  · have hm : (0 : Nat) ∈ name := by simpa using hn
    exact Or.inl ⟨hn, by simp [Context.new, cstringNew, hm]⟩
  · rw [Bool.not_eq_true] at hn
    have hm : (0 : Nat) ∉ name := by simpa using hn
    by_cases hd : env.displayOk = true
    · by_cases hf : env.fontsetHandle name = 0
      · by_cases hx : env.xfontHandle name = 0
        · refine Or.inr (Or.inr (Or.inr (Or.inr ⟨hn, hd, hf, hx, ?_⟩)))
          simp [Context.new, cstringNew, hm, hd, hf, hx]
        · refine Or.inr (Or.inr (Or.inr (Or.inl ⟨hn, hd, hf, hx, ?_⟩)))
          simp [Context.new, cstringNew, hm, hd, hf, hx]
      · refine Or.inr (Or.inr (Or.inl ⟨hn, hd, hf, ?_⟩))
        simp [Context.new, cstringNew, hm, hd, hf]
    · rw [Bool.not_eq_true] at hd
      refine Or.inr (Or.inl ⟨hn, hd, ?_⟩)
      simp [Context.new, cstringNew, hm, hd]

/-- Claim C3 — for every input byte string containing an embedded NUL,
`Context.new` fails with the NUL-conversion error (the realisation of
`InvalidSpec`) performing no Xlib call at all (in particular no display
is opened), and `get_text_width` fails with the same error (the
realisation of `InvalidText`) performing no Xlib call: the NUL check
precedes any resource access in both operations. -/
theorem nul_rejected_before_resources (env : XEnv) (ctx : Context)
    (name text : List Nat) (hn : name.contains 0 = true)
    (ht : text.contains 0 = true) :
    Context.new env name = (Except.error XError.NulError, [])
    ∧ get_text_width env ctx text = (Except.error XError.NulError, []) := by
  have hmn : (0 : Nat) ∈ name := by simpa using hn
  have hmt : (0 : Nat) ∈ text := by simpa using ht
  constructor
  · simp [Context.new, cstringNew, hmn]
  · simp [get_text_width, cstringNew, hmt]

/-- Witness for C3 at the concrete inputs "b\x00s" and "\x00". -/
theorem nul_rejected_before_resources_witness :
    Context.new envAllOk [98, 0, 115] = (Except.error XError.NulError, [])
    ∧ get_text_width envAllOk { data := Data.FontSet 1 2 } [0] =
        (Except.error XError.NulError, []) :=
  nul_rejected_before_resources envAllOk { data := Data.FontSet 1 2 }
    [98, 0, 115] [0] (by decide) (by decide)

/-- Claim C4 — on any context (either variant), the width query applied
to the empty string returns width 0 without error, given the X11
contract that the measurement calls report width 0 for zero-length
text. -/
theorem width_empty_text_zero (env : XEnv) (ctx : Context)
    (hmb : ∀ fs, env.mbWidth fs [] = 0)
    (hx : ∀ f, env.xTextWidth f [] = 0) :
    (get_text_width env ctx []).1 = Except.ok 0 := by
  cases hd : ctx.data with
  | FontSet d fs =>
      simp [get_text_width, cstringNew, hd, hmb fs, u16wrap]
  | XFont d f =>
      simp [get_text_width, cstringNew, hd, hx f, u64ofI32, i32ofInt]

/-- Witness for C4: both variants on a concrete oracle. -/
theorem width_empty_text_zero_witness :
    (get_text_width envAllOk { data := Data.FontSet 1 2 } []).1 = Except.ok 0
    ∧ (get_text_width envAllOk { data := Data.XFont 1 3 } []).1 = Except.ok 0 :=
  ⟨width_empty_text_zero envAllOk { data := Data.FontSet 1 2 }
      (fun _ => rfl) (fun _ => rfl),
    width_empty_text_zero envAllOk { data := Data.XFont 1 3 }
      (fun _ => rfl) (fun _ => rfl)⟩

/-- Claim C6 — teardown releases first the font resource matching the
held variant, then the display connection, exactly in that order; being
a total function into a trace,`Context.drop` reports no error. -/
theorem drop_releases_font_then_display (ctx : Context) :
    (∃ d fs, ctx.data = Data.FontSet d fs
      ∧ ctx.drop = [XEvent.freeFontSet d fs, XEvent.closeDisplay d])
    ∨ (∃ d f, ctx.data = Data.XFont d f
      ∧ ctx.drop = [XEvent.freeFont d f, XEvent.closeDisplay d]) := by
  cases h : ctx.data with
  | FontSet d fs => exact Or.inl ⟨d, fs, rfl, by simp [Context.drop, h]⟩
  | XFont d f => exact Or.inr ⟨d, f, rfl, by simp [Context.drop, h]⟩

/-- Claim C7 — the width query is read-only with respect to the context:
on every context and every text (including failing inputs) its trace
contains no releasing call, and a failed query performs no Xlib call at
all, so a failed query cannot invalidate the context for future
queries. -/
theorem query_read_only (env : XEnv) (ctx : Context) (text : List Nat) :
    (get_text_width env ctx text).2.all readOnlyEvent = true
    ∧ (∀ e, (get_text_width env ctx text).1 = Except.error e →
        (get_text_width env ctx text).2 = []) := by
  by_cases hm : (0 : Nat) ∈ text
  · simp [get_text_width, cstringNew, hm]
  · cases hd : ctx.data <;>
      simp [get_text_width, cstringNew, hm, hd, readOnlyEvent]

/-- Witness for C7: the failing query on NUL input has an empty trace. -/
theorem query_read_only_witness :
    (get_text_width envAllOk { data := Data.FontSet 1 2 } [0]).2 = [] :=
  (query_read_only envAllOk { data := Data.FontSet 1 2 } [0]).2
    XError.NulError rfl

/-- Claim C9 — `setup_multithreading` is idempotent on the process-wide
Xlib state: calling it twice equals calling it once, it sets the
threads flag, and once the flag is set a further call leaves the state
unchanged. -/
theorem setup_multithreading_idempotent (s : XProc) :
    setup_multithreading (setup_multithreading s) = setup_multithreading s
    ∧ (setup_multithreading s).threadsInited = true
    ∧ (s.threadsInited = true → setup_multithreading s = s) := by
  refine ⟨rfl, rfl, fun h => ?_⟩
  cases s with
  | mk b => cases h; rfl

/-- Witness for C9: a call on an already-initialised state is a no-op. -/
theorem setup_multithreading_idempotent_witness :
    setup_multithreading { threadsInited := true } = { threadsInited := true } :=
  (setup_multithreading_idempotent { threadsInited := true }).2.2 rfl

/-- Claim C10 — the method `Context.text_width` and the free function
`get_text_width` agree on every oracle, context and text. -/
theorem text_width_eq_get_text_width (env : XEnv) (ctx : Context)
    (text : List Nat) :
    Context.text_width env ctx text = get_text_width env ctx text := rfl

/-- Claim C1 — constructor resource safety: whenever `Context.new`
returns an error, every display it opened has been closed (the
`DisplayOpen` failure opened none, the `CouldNotLoadFont` failure
closes the one it opened, all before returning); whenever it succeeds,
no display is closed and the single opened display is the one retained
inside the returned context. -/
theorem new_failure_closes_connection (env : XEnv) (name : List Nat) :
    (∀ e, (Context.new env name).1 = Except.error e →
        closes (Context.new env name).2 = opens (Context.new env name).2)
    ∧ (∀ ctx, (Context.new env name).1 = Except.ok ctx →
        closes (Context.new env name).2 = []
        ∧ opens (Context.new env name).2 = [ctx.display]) := by
  rcases new_shape env name with ⟨hn, h⟩ | ⟨hn, hd, h⟩ | ⟨hn, hd, hf, h⟩
    | ⟨hn, hd, hf, hx, h⟩ | ⟨hn, hd, hf, hx, h⟩
  · rw [h]
    exact ⟨fun e he => rfl, fun ctx hc => by cases hc⟩
  · rw [h]
    exact ⟨fun e he => rfl, fun ctx hc => by cases hc⟩
  · rw [h]
    refine ⟨fun e he => (by cases he), fun ctx hc => ?_⟩
    obtain rfl := (Except.ok.inj hc).symm
    cases hm : env.missingNull name <;>
      simp [hm, closes, opens, Context.display]
  · rw [h]
    refine ⟨fun e he => (by cases he), fun ctx hc => ?_⟩
    obtain rfl := (Except.ok.inj hc).symm
    cases hm : env.missingNull name <;>
      simp [hm, closes, opens, Context.display]
  · rw [h]
    refine ⟨fun e he => ?_, fun ctx hc => by cases hc⟩
    cases hm : env.missingNull name <;>
      simp [hm, closes, opens]

/-- Witness for C1: the total-failure oracle closes what it opened; the
all-success oracle closes nothing. -/
theorem new_failure_closes_connection_witness :
    closes (Context.new envNoFonts [97]).2 = opens (Context.new envNoFonts [97]).2
    ∧ closes (Context.new envAllOk [97]).2 = [] :=
  ⟨(new_failure_closes_connection envNoFonts [97]).1
      (XError.CouldNotLoadFont [97]) rfl,
    ((new_failure_closes_connection envAllOk [97]).2
      { data := Data.FontSet 1 2 } rfl).1⟩

/-- Claim C2 — fallback order of the constructor: with a valid name and
an available display, a non-null font set yields the `FontSet` context
with no `XLoadQueryFont` call attempted; a null font set with a
non-null single font yields the `XFont` context after the
`XLoadQueryFont` attempt on the same display and name; if both are
null the constructor fails with `CouldNotLoadFont name`. -/
theorem new_fontset_preferred (env : XEnv) (name : List Nat)
    (hn : name.contains 0 = false) (hd : env.displayOk = true) :
    (env.fontsetHandle name ≠ 0 →
        (Context.new env name).1 =
          Except.ok { data := Data.FontSet env.displayHandle (env.fontsetHandle name) }
        ∧ ∀ d s, XEvent.loadQueryFont d s ∉ (Context.new env name).2)
    ∧ (env.fontsetHandle name = 0 → env.xfontHandle name ≠ 0 →
        (Context.new env name).1 =
          Except.ok { data := Data.XFont env.displayHandle (env.xfontHandle name) }
        ∧ XEvent.loadQueryFont env.displayHandle name ∈ (Context.new env name).2)
    ∧ (env.fontsetHandle name = 0 → env.xfontHandle name = 0 →
        (Context.new env name).1 = Except.error (XError.CouldNotLoadFont name)) := by
  rcases new_shape env name with ⟨hn2, h⟩ | ⟨hn2, hd2, h⟩ | ⟨hn2, hd2, hf, h⟩
    | ⟨hn2, hd2, hf, hx, h⟩ | ⟨hn2, hd2, hf, hx, h⟩
  · rw [hn] at hn2; exact Bool.noConfusion hn2
  · exact absurd hd2 (by simp [hd])
  · refine ⟨fun _ => ⟨by rw [h], fun d s => ?_⟩,
      fun hf2 _ => absurd hf2 hf, fun hf2 _ => absurd hf2 hf⟩
    rw [h]
    cases hm : env.missingNull name <;> simp [hm]
  · refine ⟨fun hf2 => absurd hf hf2, fun _ hx2 => ⟨by rw [h], ?_⟩,
      fun _ hx2 => absurd hx2 hx⟩
    rw [h]
    cases hm : env.missingNull name <;> simp [hm]
  · exact ⟨fun hf2 => absurd hf hf2, fun _ hx2 => absurd hx hx2,
      fun _ _ => by rw [h]⟩

/-- Witness for C2: all three outcomes on concrete oracles. -/
theorem new_fontset_preferred_witness :
    (Context.new envAllOk [97]).1 = Except.ok { data := Data.FontSet 1 2 }
    ∧ (Context.new envOnlyXFont [97]).1 = Except.ok { data := Data.XFont 1 3 }
    ∧ (Context.new envNoFonts [97]).1 = Except.error (XError.CouldNotLoadFont [97]) :=
  ⟨((new_fontset_preferred envAllOk [97] (by decide) rfl).1 (by decide)).1,
    ((new_fontset_preferred envOnlyXFont [97] (by decide) rfl).2.1 rfl (by decide)).1,
    (new_fontset_preferred envNoFonts [97] (by decide) rfl).2.2 rfl rfl⟩

/-- Claim C5 — every successfully constructed context holds exactly one
resource variant, a non-null font resource paired with the display the
constructor opened; that display is never closed during construction
(the connection is live), and no width query on the context ever
performs a releasing call, so the resource choice is fixed until
teardown. -/
theorem ctx_one_variant_live (env : XEnv) (name : List Nat) (ctx : Context)
    (h : (Context.new env name).1 = Except.ok ctx) :
    ((∃ fs, fs ≠ 0 ∧ ctx.data = Data.FontSet env.displayHandle fs)
      ∨ (∃ f, f ≠ 0 ∧ ctx.data = Data.XFont env.displayHandle f))
    ∧ closes (Context.new env name).2 = []
    ∧ ∀ text, (get_text_width env ctx text).2.all readOnlyEvent = true := by
  have hq : ∀ text, (get_text_width env ctx text).2.all readOnlyEvent = true := by
    intro text
    by_cases hm : (0 : Nat) ∈ text
    · simp [get_text_width, cstringNew, hm]
    · cases hdata : ctx.data <;>
        simp [get_text_width, cstringNew, hm, hdata, readOnlyEvent]
  rcases new_shape env name with ⟨hn, hh⟩ | ⟨hn, hd, hh⟩ | ⟨hn, hd, hf, hh⟩
    | ⟨hn, hd, hf, hx, hh⟩ | ⟨hn, hd, hf, hx, hh⟩
  · rw [hh] at h; cases h
  · rw [hh] at h; cases h
  · rw [hh] at h
    obtain rfl := (Except.ok.inj h).symm
    refine ⟨Or.inl ⟨env.fontsetHandle name, hf, rfl⟩, ?_, hq⟩
    rw [hh]
    cases hm : env.missingNull name <;> simp [hm, closes]
  · rw [hh] at h
    obtain rfl := (Except.ok.inj h).symm
    refine ⟨Or.inr ⟨env.xfontHandle name, hx, rfl⟩, ?_, hq⟩
    rw [hh]
    cases hm : env.missingNull name <;> simp [hm, closes]
  · rw [hh] at h; cases h

/-- Witness for C5: the context built on the all-success oracle holds
the FontSet variant over the opened display. -/
theorem ctx_one_variant_live_witness :
    (∃ fs, fs ≠ 0
        ∧ (Data.FontSet 1 2 : Data) = Data.FontSet envAllOk.displayHandle fs)
    ∨ (∃ f, f ≠ 0
        ∧ (Data.FontSet 1 2 : Data) = Data.XFont envAllOk.displayHandle f) :=
  (ctx_one_variant_live envAllOk [97] { data := Data.FontSet 1 2 } rfl).1

/-- Claim C8 — the missing-charset list is freed exactly when the
pointer reported by `XCreateFontSet` is non-null, and its presence
never affects the constructor's result: replacing the oracle's
missing-list behaviour leaves the returned value unchanged. -/
theorem missing_list_freed (env : XEnv) (name : List Nat)
    (hn : name.contains 0 = false) (hd : env.displayOk = true) :
    (XEvent.freeStringList env.displayHandle ∈ (Context.new env name).2
      ↔ env.missingNull name = false)
    ∧ ∀ m, (Context.new (withMissing env m) name).1 = (Context.new env name).1 := by
  have hm : (0 : Nat) ∉ name := by simpa using hn
  constructor
  · rcases new_shape env name with ⟨hn2, hh⟩ | ⟨hn2, hd2, hh⟩ | ⟨hn2, hd2, hf, hh⟩
      | ⟨hn2, hd2, hf, hx, hh⟩ | ⟨hn2, hd2, hf, hx, hh⟩
    · rw [hn] at hn2; exact Bool.noConfusion hn2
    · exact absurd hd2 (by simp [hd])
    · rw [hh]
      cases hmn : env.missingNull name <;> simp [hmn]
    · rw [hh]
      cases hmn : env.missingNull name <;> simp [hmn]
    · rw [hh]
      cases hmn : env.missingNull name <;> simp [hmn]
  · intro m
    by_cases hf : env.fontsetHandle name = 0
    · by_cases hx : env.xfontHandle name = 0
      · simp [Context.new, cstringNew, hm, hd, withMissing, hf, hx]
      · simp [Context.new, cstringNew, hm, hd, withMissing, hf, hx]
    · simp [Context.new, cstringNew, hm, hd, withMissing, hf]

/-- Witness for C8: the list is freed on the oracle reporting it, and
toggling the missing-list behaviour leaves the result unchanged. -/
theorem missing_list_freed_witness :
    XEvent.freeStringList 1 ∈ (Context.new envMissingList [97]).2
    ∧ (Context.new (withMissing envAllOk fun _ => false) [97]).1 =
        (Context.new envAllOk [97]).1 :=
  ⟨(missing_list_freed envMissingList [97] (by decide) rfl).1.mpr rfl,
    (missing_list_freed envAllOk [97] (by decide) rfl).2 (fun _ => false)⟩
